import Mathlib

/-!
Verification development for the geospatial location and facility discovery
subsystem of a driver location-sharing backend.

The Python sources embedded here:
  app/utils/location.py            (fuzz_location, calculate_distance)
  app/services/facility_discovery.py
  app/routers/map.py               (get_driver_clusters, get_hotspots)

Modelling conventions:
* Python floats are modelled as real numbers for the transcendental geometry
  (haversine, fuzzing) and as rationals where values are stored, compared for
  equality, or formatted (database rows, geohash grid arithmetic).  Every
  Python float value is exactly a rational, so no expressiveness is lost.
* Timestamps are integers counting seconds; `timedelta(days=30)` is
  30 * 86400 seconds.
* The random values drawn by `random.uniform` inside `fuzz_location` are
  passed as explicit arguments `angle` and `dist`.
* Database tables are lists of rows in insertion order; supabase query
  chains (`eq`, `gte`, `lte`, `like`, `single`) become list operations.
-/

namespace FindTruck

/-! ### app/utils/location.py -/

/-- Model of `math.radians`: degrees to radians. -/
noncomputable def radians (x : ℝ) : ℝ := x * (Real.pi / 180)

/-- Model of `fuzz_location(latitude, longitude, radius_miles)`.
The two `random.uniform` draws (angle in `[0, 2π)`, distance factor in
`[0, 1]`) are explicit arguments. -/
noncomputable def fuzz_location (latitude longitude radius_miles angle dist : ℝ) :
    ℝ × ℝ :=
  let radius_lat := radius_miles / 69
  let radius_lng := radius_miles / (69 * Real.cos (radians latitude))
  let fuzzed_lat := latitude + radius_lat * dist * Real.cos angle
  let fuzzed_lng := longitude + radius_lng * dist * Real.sin angle
  (fuzzed_lat, fuzzed_lng)

/-- Model of `calculate_distance(lat1, lon1, lat2, lon2)`: haversine
great-circle distance in miles, Earth radius 3959 miles. -/
noncomputable def calculate_distance (lat1 lon1 lat2 lon2 : ℝ) : ℝ :=
  let R : ℝ := 3959
  let lat1_rad := radians lat1
  let lat2_rad := radians lat2
  let delta_lat := radians (lat2 - lat1)
  let delta_lon := radians (lon2 - lon1)
  let a := Real.sin (delta_lat / 2) ^ 2 +
    Real.cos lat1_rad * Real.cos lat2_rad * Real.sin (delta_lon / 2) ^ 2
  let c := 2 * Real.arcsin (Real.sqrt a)
  R * c

/-! ### app/services/facility_discovery.py: constants and geohash fallback -/

/-- `GEOHASH_PRECISION = 6`. -/
def GEOHASH_PRECISION : ℕ := 6

/-- `QUERY_RADIUS_MILES = 5.0`. -/
def QUERY_RADIUS_MILES : ℚ := 5

/-- `CACHE_REFRESH_DAYS = 30`. -/
def CACHE_REFRESH_DAYS : ℤ := 30

/-- Character-list test that one list is an initial segment of another.
String operations are modelled on character lists (Python strings are
character sequences; slicing and comparisons are per character). -/
def startsChars : List Char → List Char → Bool
  | [], _ => true
  | _ :: _, [] => false
  | a :: s, b :: t => a == b && startsChars s t

/-- Python slice `s[:n]`. -/
def strTake (s : String) (n : ℕ) : String :=
  String.mk (s.data.take n)

/-- Python `s.startswith(pfx)`, also the SQL `LIKE 'pfx%'` condition. -/
def strStarts (s pfx : String) : Bool :=
  startsChars pfx.data s.data

/-- Python substring test `sub in s` (character lists of the two strings). -/
def strContains (s sub : String) : Bool :=
  let rec go : List Char → Bool
    | [] => sub.data.isEmpty
    | c :: t => startsChars sub.data (c :: t) || go t
  go s.data

/-- Python `int(...)` on a rational: truncation toward zero. -/
def pyInt (q : ℚ) : ℤ := if 0 ≤ q then ⌊q⌋ else ⌈q⌉

/-- Zero-padded decimal rendering of a natural, Python `f-string` field
width semantics for nonnegative values. -/
def zpadNat (w : ℕ) (n : ℕ) : String :=
  let s := toString n
  String.mk (List.replicate (w - s.length) '0') ++ s

/-- Python `f"{n:05d}"`-style rendering of an integer (the sign occupies one
column of the field width). -/
def zpadInt (w : ℕ) (n : ℤ) : String :=
  if n < 0 then "-" ++ zpadNat (w - 1) n.natAbs else zpadNat w n.natAbs

/-- Model of `encode_geohash(latitude, longitude, precision)`.
The in-repository fallback grid hash is modelled (the optional external
`geohash` library is not part of the repository):
`f"\x7blat_cell:05d\x7d\x7blng_cell:06d\x7d"[:precision]` with
`lat_cell = int((latitude + 90) * 100)` and
`lng_cell = int((longitude + 180) * 100)`. -/
def encode_geohash (latitude longitude : ℚ) (precision : ℕ) : String :=
  let lat_cell := pyInt ((latitude + 90) * 100)
  let lng_cell := pyInt ((longitude + 180) * 100)
  strTake (zpadInt 5 lat_cell ++ zpadInt 6 lng_cell) precision

/-! ### Data model: table rows and provider payloads -/

/-- Python dict-of-tags lookup: `tags.get(k)` over an association list. -/
def tagGet (tags : List (String × String)) (k : String) : Option String :=
  (tags.find? (fun p => p.1 == k)).map (fun p => p.2)

/-- Python truthiness of an optional string (`None` and `""` are falsy). -/
def strTruthy : Option String → Bool
  | none => false
  | some s => !(s == "")

/-- Python `a or b` over optional strings. -/
def pyOrStr (a b : Option String) : Option String :=
  if strTruthy a then a else b

/-- Python truthiness of an optional integer (`None` and `0` are falsy). -/
def intTruthy : Option ℤ → Bool
  | none => false
  | some n => !(n == 0)

/-- Python truthiness of an optional rational (`None` and `0` are falsy);
used by the coordinate-presence check in `parse_osm_element`. -/
def numTruthy : Option ℚ → Bool
  | none => false
  | some q => !(q == 0)

/-- The dictionary built by `parse_osm_element` (one candidate facility).
The `amenities` JSON object is modelled as the list of keys inserted, in
order; every inserted value is `true` in the source. -/
structure FacilityRecord where
  name : String
  type_ : String
  latitude : ℚ
  longitude : ℚ
  address : Option String
  city : Option String
  state : Option String
  zip_code : Option String
  brand : Option String
  amenities : Option (List String)
  parking_spaces : Option ℕ
  is_open_24h : Bool
  geohash : String
  data_source : String
  osm_id : Option ℤ
  last_verified_at : ℤ
  deriving Repr, DecidableEq

/-- A stored row of the `facilities` table: the inserted candidate record
plus the row id assigned by the store. -/
structure Facility where
  id : ℕ
  record : FacilityRecord
  deriving Repr, DecidableEq

/-- A row of the `osm_query_cache` table.  The source column
`geohash_prefix` is modelled by the field `geohash_key`. -/
structure OsmQueryCacheRecord where
  geohash_key : String
  center_latitude : ℚ
  center_longitude : ℚ
  query_radius_miles : ℚ
  facilities_found : ℕ
  last_queried_at : ℤ
  query_count : ℕ
  deriving Repr, DecidableEq

/-- The persistent store visible to the discovery service. -/
structure DbState where
  facilities : List Facility
  osm_query_cache : List OsmQueryCacheRecord
  next_id : ℕ
  deriving Repr, DecidableEq

/-- One element of the Overpass JSON payload: a type tag, an optional own
coordinate, an optional `center` object (itself with optional coordinates),
an optional element id and a tag dictionary. -/
structure OsmElement where
  type_ : String
  lat : Option ℚ
  lon : Option ℚ
  center : Option (Option ℚ × Option ℚ)
  id : Option ℤ
  tags : List (String × String)
  deriving Repr, DecidableEq

/-- Outcome of the HTTP interaction in `query_osm_nearby`, abstracting the
transport: the call either times out, fails at the connection level, or
yields a response with a status code and a body that parses as JSON or not.
A JSON body carries the `elements` array (`data.get("elements", [])`). -/
inductive ProviderResponse where
  | timeout
  | connectionError
  | response (status : ℕ) (body : Option (List OsmElement))
  deriving Repr, DecidableEq

/-- The exceptions that can arise inside the `try` block of
`query_osm_nearby`: `requests.exceptions.Timeout`, a connection-level
`RequestException`, the `HTTPError` raised by `raise_for_status()` on a
non-success status, and the `JSONDecodeError` (a `RequestException`
subclass in the `requests` library) raised by `response.json()` on a
malformed body. -/
inductive OsmError where
  | timeoutErr
  | requestErr
  | httpErr (status : ℕ)
  | malformedPayload
  deriving Repr, DecidableEq

/-- The raising part of `query_osm_nearby`: performs the POST,
`raise_for_status()` (raises for status ≥ 400) and `response.json()`. -/
def queryOsmRaw (resp : ProviderResponse) : Except OsmError (List OsmElement) :=
  match resp with
  | .timeout => .error .timeoutErr
  | .connectionError => .error .requestErr
  | .response status body =>
    if 400 ≤ status then .error (.httpErr status)
    else match body with
      | none => .error .malformedPayload
      | some elements => .ok elements

/-- Model of `query_osm_nearby(latitude, longitude, radius_miles)`.
The coordinates and radius only shape the outgoing Overpass query, which
the `ProviderResponse` argument abstracts; every exception listed in
`OsmError` is caught by the `except` clauses and converted to `[]`. -/
def query_osm_nearby (_latitude _longitude : ℚ) (_radius_miles : ℚ)
    (resp : ProviderResponse) : List OsmElement :=
  match queryOsmRaw resp with
  | .ok elements => elements
  | .error _ => []

open Classical

/-! ### parse_osm_element -/

/-- Python `str.title()` for the space-separated lowercase words that occur
here: capitalize each word. -/
def titleCase (s : String) : String :=
  String.intercalate " " ((s.splitOn " ").map String.capitalize)

/-- Python `f"\x7bq:.4f\x7d"`: fixed four decimal places.  Ties round up
here while CPython rounds ties on the underlying binary float to even; no
other behaviour of the system depends on the tie case. -/
def fmt4 (q : ℚ) : String :=
  let n : ℤ := ⌊|q| * 10000 + 1 / 2⌋
  let sign := if q < 0 then "-" else ""
  sign ++ toString (n.natAbs / 10000) ++ "." ++ zpadNat 4 (n.natAbs % 10000)

/-- The facility-type classification chain of `parse_osm_element`. -/
def osm_facility_type (tags : List (String × String)) : String :=
  let amenity := tagGet tags "amenity"
  let highway := tagGet tags "highway"
  let building := tagGet tags "building"
  let industrial := tagGet tags "industrial"
  if amenity == some "fuel" && tagGet tags "hgv" == some "yes" then "truck_stop"
  else if amenity == some "fuel" then "truck_stop"
  else if highway == some "rest_area" then "rest_area"
  else if amenity == some "parking" && tagGet tags "hgv" == some "yes" then "parking"
  else if highway == some "services" then "service_plaza"
  else if building == some "warehouse" then "warehouse"
  else if building == some "industrial" then "warehouse"
  else if industrial == some "distribution" then "warehouse"
  else if building == some "retail" || building == some "commercial" then "warehouse"
  else "truck_stop"

/-- The amenities JSON object of `parse_osm_element`, as its key list. -/
def osm_amenities (tags : List (String × String)) : List String :=
  (if tagGet tags "fuel:diesel" == some "yes" then ["diesel"] else []) ++
  (if tagGet tags "shop" == some "convenience" then ["convenience_store"] else []) ++
  (if tagGet tags "amenity" == some "restaurant" || tagGet tags "amenity" == some "food"
    then ["food"] else []) ++
  (if tagGet tags "shower" == some "yes" then ["showers"] else []) ++
  (if tagGet tags "toilets" == some "yes" then ["restrooms"] else []) ++
  (if tagGet tags "wifi" == some "yes" then ["wifi"] else [])

/-- The record returned by `parse_osm_element` once both coordinates passed
the truthiness check. -/
def build_osm_facility (tags : List (String × String)) (lat lon : ℚ)
    (oid : Option ℤ) (now : ℤ) : FacilityRecord :=
  let facility_type := osm_facility_type tags
  let name := (pyOrStr (tagGet tags "name")
    (pyOrStr (tagGet tags "operator") (tagGet tags "brand"))).getD
    (titleCase (facility_type.replace "_" " ") ++ " (" ++ fmt4 lat ++ ", " ++ fmt4 lon ++ ")")
  let amenities := osm_amenities tags
  { name := name
    type_ := facility_type
    latitude := lat
    longitude := lon
    address := tagGet tags "addr:street"
    city := tagGet tags "addr:city"
    state := tagGet tags "addr:state"
    zip_code := tagGet tags "addr:postcode"
    brand := pyOrStr (tagGet tags "brand") (tagGet tags "operator")
    amenities := if amenities.isEmpty then none else some amenities
    parking_spaces := (tagGet tags "capacity").bind String.toNat?
    is_open_24h := tagGet tags "opening_hours" == some "24/7"
    geohash := encode_geohash lat lon 12
    data_source := "openstreetmap"
    osm_id := oid
    last_verified_at := now }

/-- The latitude value extracted by `parse_osm_element` before its
presence check: the element's own `lat` for a node, else the `center`
latitude when a center object exists. -/
def osm_extracted_lat (element : OsmElement) : Option ℚ :=
  if element.type_ == "node" then element.lat
  else match element.center with
    | some c => c.1
    | none => none

/-- Longitude counterpart of `osm_extracted_lat`. -/
def osm_extracted_lon (element : OsmElement) : Option ℚ :=
  if element.type_ == "node" then element.lon
  else match element.center with
    | some c => c.2
    | none => none

/-- Model of `parse_osm_element(element)`; `now` stands for
`datetime.utcnow()`.  The coordinate-presence check is the source's
`if not lat or not lon: return None`, which tests numeric truthiness. -/
def parse_osm_element (element : OsmElement) (now : ℤ) : Option FacilityRecord :=
  if element.type_ != "node" && element.center.isNone then none
  else if numTruthy (osm_extracted_lat element) && numTruthy (osm_extracted_lon element) then
    match osm_extracted_lat element, osm_extracted_lon element with
    | some lat, some lon => some (build_osm_facility element.tags lat lon element.id now)
    | _, _ => none
  else none

/-! ### Region discovery cache -/

/-- Model of `should_query_osm(db, latitude, longitude)`; `now` stands for
`datetime.utcnow()`.  A missing row (supabase `.single()` raises, caught by
the blanket `except`) yields `True`. -/
def should_query_osm (cache : List OsmQueryCacheRecord) (latitude longitude : ℚ)
    (now : ℤ) : Bool :=
  match cache.find? (fun r =>
      r.geohash_key == encode_geohash latitude longitude GEOHASH_PRECISION) with
  | none => true
  | some r => decide (now - r.last_queried_at > CACHE_REFRESH_DAYS * 86400)

/-- Model of `_update_query_cache(db, latitude, longitude, facilities_found)`:
update the row matching the cell key, or insert a fresh one. -/
def _update_query_cache (cache : List OsmQueryCacheRecord)
    (latitude longitude : ℚ) (facilities_found : ℕ) (now : ℤ) :
    List OsmQueryCacheRecord :=
  match cache.find? (fun r =>
      r.geohash_key == encode_geohash latitude longitude GEOHASH_PRECISION) with
  | some r0 =>
    cache.map (fun r =>
      if r.geohash_key == encode_geohash latitude longitude GEOHASH_PRECISION then
        { r with last_queried_at := now, facilities_found := facilities_found,
                 query_count := r0.query_count + 1 }
      else r)
  | none =>
    cache ++ [{ geohash_key := encode_geohash latitude longitude GEOHASH_PRECISION,
                center_latitude := latitude,
                center_longitude := longitude,
                query_radius_miles := QUERY_RADIUS_MILES,
                facilities_found := facilities_found,
                last_queried_at := now, query_count := 1 }]

/-! ### Deduplication filter and import -/

/-- The proximity-plus-name loop of `check_duplicate_facility` over the
rows sharing the candidate's 6-character cell key. -/
noncomputable def near_duplicate_loop (facility : FacilityRecord)
    (threshold_miles : ℝ) : List Facility → Bool
  | [] => false
  | existing :: rest =>
    let distance := calculate_distance facility.latitude facility.longitude
      existing.record.latitude existing.record.longitude
    if distance ≤ threshold_miles then
      let name1 := facility.name.toLower
      let name2 := existing.record.name.toLower
      if name1 == name2 || strContains name2 name1 || strContains name1 name2 then true
      else near_duplicate_loop facility threshold_miles rest
    else near_duplicate_loop facility threshold_miles rest

/-- Model of `check_duplicate_facility(db, facility, threshold_miles)`.
`if facility.get("osm_id"):` is Python truthiness, so the exact-id check
runs only for a present, nonzero id.  The source's default
`threshold_miles = 0.05` is supplied at each call site here. -/
noncomputable def check_duplicate_facility (db : DbState)
    (facility : FacilityRecord) (threshold_miles : ℝ) : Bool :=
  if intTruthy facility.osm_id &&
      db.facilities.any (fun e => e.record.osm_id == facility.osm_id) then true
  else
    let geohash_key6 := strTake facility.geohash 6
    let nearby := db.facilities.filter (fun e => strStarts e.record.geohash geohash_key6)
    near_duplicate_loop facility threshold_miles nearby

/-- Row insertion into the `facilities` table (the store assigns the id). -/
def insert_facility (db : DbState) (facility : FacilityRecord) : DbState :=
  { db with facilities := db.facilities ++ [{ id := db.next_id, record := facility }],
            next_id := db.next_id + 1 }

/-- The body of the import loop of `discover_facilities`: parse the
element, skip unparseable elements and duplicates, insert and count the
rest. -/
noncomputable def import_element (now : ℤ) (acc : ℕ × DbState)
    (element : OsmElement) : ℕ × DbState :=
  match parse_osm_element element now with
  | none => acc
  | some facility =>
    if check_duplicate_facility acc.2 facility 0.05 then acc
    else (acc.1 + 1, insert_facility acc.2 facility)

/-- Model of `discover_facilities(db, latitude, longitude)`: returns the
number of newly imported facilities together with the updated store. -/
noncomputable def discover_facilities (db : DbState) (latitude longitude : ℚ)
    (resp : ProviderResponse) (now : ℤ) : ℕ × DbState :=
  if !(should_query_osm db.osm_query_cache latitude longitude now) then (0, db)
  else
    let osm_elements := query_osm_nearby latitude longitude QUERY_RADIUS_MILES resp
    if osm_elements.isEmpty then
      (0, { db with osm_query_cache :=
              _update_query_cache db.osm_query_cache latitude longitude 0 now })
    else
      let res := osm_elements.foldl (import_element now) (0, db)
      (res.1, { res.2 with osm_query_cache :=
                  (_update_query_cache res.2.osm_query_cache latitude longitude
                    osm_elements.length now) })

/-! ### Proximity lookup -/

/-- The bounding box queried by `find_nearby_facility`:
`search_radius_deg = max_distance_miles / 69.0 * 1.5` applied to both axes
(`gte`/`lte` on the latitude and longitude columns). -/
def in_search_box (latitude longitude : ℚ) (max_distance_miles : ℝ)
    (f : Facility) : Prop :=
  let s := max_distance_miles / 69 * 1.5
  (latitude : ℝ) - s ≤ (f.record.latitude : ℝ) ∧ (f.record.latitude : ℝ) ≤ (latitude : ℝ) + s ∧
  (longitude : ℝ) - s ≤ (f.record.longitude : ℝ) ∧ (f.record.longitude : ℝ) ≤ (longitude : ℝ) + s

/-- One bounding-box lookup pass of `find_nearby_facility`: fetch the rows
inside the box and keep the strictly nearest one within
`max_distance_miles`. -/
noncomputable def facility_lookup (db : DbState) (latitude longitude : ℚ)
    (max_distance_miles : ℝ) : Option (ℕ × String) :=
  let facilities := db.facilities.filter
    (fun f => decide (in_search_box latitude longitude max_distance_miles f))
  let nearest := facilities.foldl (fun acc f =>
    let distance := calculate_distance latitude longitude
      f.record.latitude f.record.longitude
    match acc with
    | none => if distance ≤ max_distance_miles then some (f, distance) else none
    | some (g, dg) =>
      if distance ≤ max_distance_miles ∧ distance < dg then some (f, distance)
      else some (g, dg)) none
  nearest.map (fun p => (p.1.id, p.1.record.name))

/-- Return value of `find_nearby_facility` plus the resulting store and,
as instrumentation for the recursion-depth property, the number of
bounding-box lookup passes performed. -/
structure FindNearbyResult where
  result : Option (ℕ × String)
  db : DbState
  lookups : ℕ
  deriving DecidableEq

/-- Model of `find_nearby_facility`.  The source retries through a
recursive call with `discover_if_missing=False`; that call is unfolded
here (it performs exactly one further lookup pass), and it happens only
when `discovered > 0`. -/
noncomputable def find_nearby_facility (db : DbState) (latitude longitude : ℚ)
    (max_distance_miles : ℝ) (discover_if_missing : Bool)
    (resp : ProviderResponse) (now : ℤ) : FindNearbyResult :=
  match facility_lookup db latitude longitude max_distance_miles with
  | some r => { result := some r, db := db, lookups := 1 }
  | none =>
    if discover_if_missing then
      let d := discover_facilities db latitude longitude resp now
      if 0 < d.1 then
        { result := facility_lookup d.2 latitude longitude max_distance_miles,
          db := d.2, lookups := 2 }
      else { result := none, db := d.2, lookups := 1 }
    else { result := none, db := db, lookups := 1 }

/-! ### app/routers/map.py: clusters and hotspots -/

/-- `settings.geohash_precision_metro` (default 6). -/
def geohash_precision_metro : ℕ := 6

/-- `settings.geohash_precision_local` (default 8). -/
def geohash_precision_local : ℕ := 8

/-- `settings.hotspot_min_waiting_drivers` (default 10). -/
def hotspot_min_waiting_drivers_setting : ℕ := 10

/-- A row of the `driver_locations` response joined with its driver. -/
structure DriverLocationRow where
  driver_id : ℕ
  status : String
  fuzzed_latitude : ℚ
  fuzzed_longitude : ℚ
  geohash : String
  recorded_at : ℤ
  deriving Repr, DecidableEq

/-- One cluster of the `/map/clusters` response. -/
structure Cluster where
  geohash : String
  center_latitude : ℚ
  center_longitude : ℚ
  total_drivers : ℕ
  status_breakdown : List (String × ℕ)
  distance_from_search : ℝ

/-- One hotspot of the `/map/hotspots` response. -/
structure Hotspot where
  geohash : String
  latitude : ℚ
  longitude : ℚ
  facility_name : Option String
  waiting_drivers : ℕ
  avg_wait_hours : ℚ
  distance_from_search : ℝ

/-- Python `round(x, 2)`.  Ties round up here while CPython rounds ties on
the binary float to even; no property below depends on the tie case. -/
noncomputable def pyRound2 (x : ℝ) : ℝ := (⌊x * 100 + 1 / 2⌋ : ℤ) / 100

/-- The key sequence of a Python dict built by repeated insertion:
first-occurrence order, models `defaultdict` grouping plus `.items()`. -/
def dictKeys (ks : List String) : List String :=
  ks.foldl (fun acc k => if acc.contains k then acc else acc ++ [k]) []

/-- Python `a or b` for the optional `min_waiting_drivers` query parameter
(`None` and `0` fall back to the setting). -/
def pyOrNat (a : Option ℕ) (b : ℕ) : ℕ :=
  match a with
  | some n => if n == 0 then b else n
  | none => b

/-- The fresh rows within the search radius, as filtered by
`get_driver_clusters`: `recorded_at` within the last 12 hours (the
`gte("recorded_at", cutoff)` query condition) and haversine distance from
the search center at most `radius_miles`. -/
noncomputable def locations_in_radius (rows : List DriverLocationRow) (now : ℤ)
    (latitude longitude : ℚ) (radius_miles : ℝ) : List DriverLocationRow :=
  (rows.filter (fun l => decide (now - 43200 ≤ l.recorded_at))).filter
    (fun l => decide (calculate_distance latitude longitude
      l.fuzzed_latitude l.fuzzed_longitude ≤ radius_miles))

/-- The cluster built from one geohash group. -/
noncomputable def mk_cluster (latitude longitude : ℚ) (h : String)
    (grp : List DriverLocationRow) : Cluster :=
  let avg_lat := (grp.map (fun d => d.fuzzed_latitude)).sum / grp.length
  let avg_lng := (grp.map (fun d => d.fuzzed_longitude)).sum / grp.length
  let statuses := dictKeys (grp.map (fun d => d.status))
  { geohash := h
    center_latitude := avg_lat
    center_longitude := avg_lng
    total_drivers := grp.length
    status_breakdown := statuses.map (fun s => (s, (grp.filter (fun d => d.status == s)).length))
    distance_from_search := pyRound2 (calculate_distance latitude longitude avg_lat avg_lng) }

/-- Sort relation of the clusters response: ascending reported distance
from the search center (`clusters.sort(key=...["distance_from_search"])`,
a stable sort modelled by insertion sort). -/
def clusterLe : Cluster → Cluster → Prop :=
  fun a b => a.distance_from_search ≤ b.distance_from_search

instance : IsTotal Cluster clusterLe :=
  ⟨fun a b => le_total a.distance_from_search b.distance_from_search⟩

instance : IsTrans Cluster clusterLe := ⟨fun _ _ _ hab hbc => le_trans hab hbc⟩

/-- Sort relation of the hotspots response: descending waiting-driver
count (`hotspots.sort(key=..., reverse=True)`). -/
def hotspotGe : Hotspot → Hotspot → Prop :=
  fun a b => b.waiting_drivers ≤ a.waiting_drivers

instance : IsTotal Hotspot hotspotGe :=
  ⟨fun a b => le_total b.waiting_drivers a.waiting_drivers⟩

instance : IsTrans Hotspot hotspotGe := ⟨fun _ _ _ hab hbc => le_trans hbc hab⟩

/-- The group of fresh in-radius rows sharing the metro-precision cell key
`h`: one `defaultdict` bucket of `get_driver_clusters`. -/
noncomputable def cluster_cell_group (rows : List DriverLocationRow) (now : ℤ)
    (latitude longitude : ℚ) (radius_miles : ℝ) (h : String) :
    List DriverLocationRow :=
  (locations_in_radius rows now latitude longitude radius_miles).filter
    (fun l => strTake l.geohash geohash_precision_metro == h)

/-- Model of the aggregation core of `GET /map/clusters`
(`get_driver_clusters`): group fresh in-radius rows by the metro-precision
geohash key, keep groups of at least `min_drivers`, sort by distance. -/
noncomputable def get_driver_clusters (rows : List DriverLocationRow) (now : ℤ)
    (latitude longitude : ℚ) (radius_miles : ℝ) (min_drivers : ℕ) : List Cluster :=
  let keys := dictKeys ((locations_in_radius rows now latitude longitude radius_miles).map
    (fun l => strTake l.geohash geohash_precision_metro))
  let clusters := keys.filterMap (fun h =>
    if min_drivers ≤ (cluster_cell_group rows now latitude longitude radius_miles h).length
    then some (mk_cluster latitude longitude h
      (cluster_cell_group rows now latitude longitude radius_miles h))
    else none)
  List.insertionSort clusterLe clusters

/-- The waiting rows considered by `get_hotspots`: status `waiting` (the
`eq("drivers.status", "waiting")` condition), fresh, in radius. -/
noncomputable def waiting_in_radius (rows : List DriverLocationRow) (now : ℤ)
    (latitude longitude : ℚ) (radius_miles : ℝ) : List DriverLocationRow :=
  locations_in_radius (rows.filter (fun l => l.status == "waiting")) now
    latitude longitude radius_miles

/-- The hotspot built from one geohash group: centroid, first facility
within 0.3 miles of the centroid (the for-loop with `break`), the
placeholder average wait of 2.5 hours. -/
noncomputable def mk_hotspot (facilities : List Facility) (latitude longitude : ℚ)
    (h : String) (grp : List DriverLocationRow) : Hotspot :=
  let avg_lat := (grp.map (fun d => d.fuzzed_latitude)).sum / grp.length
  let avg_lng := (grp.map (fun d => d.fuzzed_longitude)).sum / grp.length
  let facility_name := (facilities.find? (fun f =>
    decide (calculate_distance avg_lat avg_lng
      f.record.latitude f.record.longitude ≤ 0.3))).map (fun f => f.record.name)
  { geohash := h
    latitude := avg_lat
    longitude := avg_lng
    facility_name := facility_name
    waiting_drivers := grp.length
    avg_wait_hours := 5 / 2
    distance_from_search := pyRound2 (calculate_distance latitude longitude avg_lat avg_lng) }

/-- The group of fresh in-radius waiting rows sharing the local-precision
cell key `h`: one `defaultdict` bucket of `get_hotspots`. -/
noncomputable def hotspot_cell_group (rows : List DriverLocationRow) (now : ℤ)
    (latitude longitude : ℚ) (radius_miles : ℝ) (h : String) :
    List DriverLocationRow :=
  (waiting_in_radius rows now latitude longitude radius_miles).filter
    (fun l => strTake l.geohash geohash_precision_local == h)

/-- Model of the aggregation core of `GET /map/hotspots` (`get_hotspots`). -/
noncomputable def get_hotspots (rows : List DriverLocationRow)
    (facilities : List Facility) (now : ℤ) (latitude longitude : ℚ)
    (radius_miles : ℝ) (min_waiting_drivers : Option ℕ) : List Hotspot :=
  let min_drivers := pyOrNat min_waiting_drivers hotspot_min_waiting_drivers_setting
  let keys := dictKeys ((waiting_in_radius rows now latitude longitude radius_miles).map
    (fun l => strTake l.geohash geohash_precision_local))
  let hotspots := keys.filterMap (fun h =>
    if min_drivers ≤ (hotspot_cell_group rows now latitude longitude radius_miles h).length
    then some (mk_hotspot facilities latitude longitude h
      (hotspot_cell_group rows now latitude longitude radius_miles h))
    else none)
  List.insertionSort hotspotGe hotspots

/-- The deduplication-filter-then-persist step that the import loop of
`discover_facilities` applies to one parsed candidate. -/
noncomputable def import_candidate (db : DbState) (facility : FacilityRecord) : DbState :=
  if check_duplicate_facility db facility 0.05 then db
  else insert_facility db facility

/-- Number of stored facilities claiming a given external (OSM) id. -/
def facilities_claiming (db : DbState) (oid : ℤ) : ℕ :=
  (db.facilities.filter (fun e => e.record.osm_id == some oid)).length

/-- A concrete stored facility with OSM id 0, used to exercise the
truthiness guard of the exact-id duplicate check. -/
def sampleRecordA : FacilityRecord :=
  { name := "Alpha Yard", type_ := "warehouse", latitude := 10, longitude := 10,
    address := none, city := none, state := none, zip_code := none, brand := none,
    amenities := none, parking_spaces := none, is_open_24h := false,
    geohash := "aaaaaaaaaaaa", data_source := "openstreetmap",
    osm_id := some 0, last_verified_at := 0 }

/-- A second candidate in a different cell, also with OSM id 0. -/
def sampleRecordB : FacilityRecord :=
  { name := "Beta Depot", type_ := "warehouse", latitude := 50, longitude := 50,
    address := none, city := none, state := none, zip_code := none, brand := none,
    amenities := none, parking_spaces := none, is_open_24h := false,
    geohash := "bbbbbbbbbbbb", data_source := "openstreetmap",
    osm_id := some 0, last_verified_at := 0 }

/-- A candidate with a nonzero OSM id in an otherwise empty cell. -/
def sampleRecordC : FacilityRecord :=
  { name := "Gamma Travel Center", type_ := "truck_stop", latitude := 20, longitude := 20,
    address := none, city := none, state := none, zip_code := none, brand := none,
    amenities := none, parking_spaces := none, is_open_24h := false,
    geohash := "cccccccccccc", data_source := "openstreetmap",
    osm_id := some 123, last_verified_at := 0 }

/-- A stored facility at latitude 60, longitude 1.1 degrees: roughly 38
miles from `(60, 0)` along the 60th parallel. -/
def sampleFacilityFar : Facility :=
  { id := 0, record :=
    { name := "Highway Depot", type_ := "warehouse", latitude := 60, longitude := 11/10,
      address := none, city := none, state := none, zip_code := none, brand := none,
      amenities := none, parking_spaces := none, is_open_24h := false,
      geohash := "dddddddddddd", data_source := "openstreetmap",
      osm_id := none, last_verified_at := 0 } }

/-- Modelled from the spec: the claim that the aggregation orderings are
"configurable by the caller, not hard-coded to one order" — some choice of
caller-supplied arguments yields a hotspot output not in descending
member-count order, or a cluster output not in ascending distance order. -/
def ordering_caller_configurable : Prop :=
  (∃ rows facilities now latitude longitude radius_miles min_waiting_drivers,
    ¬ List.Sorted hotspotGe
      (get_hotspots rows facilities now latitude longitude radius_miles
        min_waiting_drivers)) ∨
  (∃ rows now latitude longitude radius_miles min_drivers,
    ¬ List.Sorted clusterLe
      (get_driver_clusters rows now latitude longitude radius_miles min_drivers))

/-! ### Theorems -/

/-! #### General list helpers -/

lemma find?_append_none {α} (p : α → Bool) (l₁ l₂ : List α)
    (h : l₁.find? p = none) : (l₁ ++ l₂).find? p = l₂.find? p := by
  induction l₁ with
  | nil => rfl
  | cons a tl ih =>
    cases ha : p a with
    | true => rw [List.find?_cons_of_pos _ ha] at h; exact absurd h (by simp)
    | false =>
      rw [List.find?_cons_of_neg _ (by simp [ha])] at h
      rw [List.cons_append, List.find?_cons_of_neg _ (by simp [ha])]
      exact ih h

lemma dictKeys_aux_mem (ks : List String) :
    ∀ (acc : List String) (k : String),
      k ∈ ks.foldl (fun acc k => if acc.contains k then acc else acc ++ [k]) acc ↔
        k ∈ acc ∨ k ∈ ks := by
  induction ks with
  | nil => intro acc k; simp
  | cons a tl ih =>
    intro acc k
    rw [List.foldl_cons]
    by_cases ha : acc.contains a
    · rw [if_pos ha, ih]
      constructor
      · rintro (h | h)
        · exact Or.inl h
        · exact Or.inr (List.mem_cons_of_mem a h)
      · rintro (h | h)
        · exact Or.inl h
        · rcases List.mem_cons.mp h with rfl | h
          · exact Or.inl (by simpa using ha)
          · exact Or.inr h
    · rw [if_neg ha, ih]
      constructor
      · rintro (h | h)
        · rcases List.mem_append.mp h with h | h
          · exact Or.inl h
          · rcases List.mem_singleton.mp h with rfl
            exact Or.inr (List.mem_cons_self _ _)
        · exact Or.inr (List.mem_cons_of_mem a h)
      · rintro (h | h)
        · exact Or.inl (List.mem_append_left _ h)
        · rcases List.mem_cons.mp h with rfl | h
          · exact Or.inl (List.mem_append_right _ (List.mem_singleton.mpr rfl))
          · exact Or.inr h

lemma dictKeys_mem (ks : List String) (k : String) :
    k ∈ dictKeys ks ↔ k ∈ ks := by
  unfold dictKeys
  rw [dictKeys_aux_mem]
  simp

/-! #### C10: zero coordinates are dropped by parse_osm_element -/

/-- C10: an element whose extracted latitude or longitude is exactly 0 is
rejected by `parse_osm_element` (and hence contributes nothing to
the import loop), because the presence check `if not lat or not lon` tests
numeric truthiness. -/
theorem parse_osm_element_drops_zero_coordinates (element : OsmElement) (now : ℤ)
    (h : osm_extracted_lat element = some 0 ∨ osm_extracted_lon element = some 0) :
    parse_osm_element element now = none ∧
    ∀ acc : ℕ × DbState, import_element now acc element = acc := by
  have hfalse : (numTruthy (osm_extracted_lat element) &&
      numTruthy (osm_extracted_lon element)) = false := by
    rcases h with h | h
    · rw [h]; simp [numTruthy]
    · rw [h]; simp [numTruthy]
  have hnone : parse_osm_element element now = none := by
    unfold parse_osm_element
    by_cases hguard : (element.type_ != "node" && element.center.isNone) = true
    · rw [if_pos hguard]
    · rw [if_neg hguard, hfalse]
      simp
  exact ⟨hnone, fun acc => by unfold import_element; rw [hnone]⟩

/-- Witness for C10: a node element at latitude exactly 0 is dropped. -/
theorem parse_osm_element_drops_zero_coordinates_witness :
    parse_osm_element ⟨"node", some 0, some 5, none, some 7, []⟩ 0 = none :=
  (parse_osm_element_drops_zero_coordinates ⟨"node", some 0, some 5, none, some 7, []⟩ 0
    (Or.inl rfl)).1

/-! #### C2: provider failures yield an empty result, never an error -/

/-- C2: whenever the provider interaction fails (timeout, connection
failure, non-success HTTP status, malformed payload — exactly the cases in
which `queryOsmRaw` raises), `query_osm_nearby` returns the empty list,
`discover_facilities` reports zero imported facilities, and
`find_nearby_facility` returns the plain result of its stored-facility
lookup; no failure propagates to any caller. -/
theorem osm_failure_yields_empty_result (latitude longitude radius : ℚ)
    (resp : ProviderResponse) (e : OsmError)
    (hfail : queryOsmRaw resp = .error e) :
    query_osm_nearby latitude longitude radius resp = [] ∧
    (∀ (db : DbState) (now : ℤ),
      (discover_facilities db latitude longitude resp now).1 = 0) ∧
    (∀ (db : DbState) (max_distance_miles : ℝ) (now : ℤ),
      (find_nearby_facility db latitude longitude max_distance_miles true resp now).result
        = facility_lookup db latitude longitude max_distance_miles) := by
  have hq : ∀ r : ℚ, query_osm_nearby latitude longitude r resp = [] := by
    intro r; unfold query_osm_nearby; rw [hfail]
  have hdisc : ∀ (db : DbState) (now : ℤ),
      (discover_facilities db latitude longitude resp now).1 = 0 := by
    intro db now
    unfold discover_facilities
    rw [hq]
    by_cases hg : should_query_osm db.osm_query_cache latitude longitude now
    · rw [hg]; simp
    · rw [Bool.not_eq_true] at hg; rw [hg]; simp
  refine ⟨hq radius, hdisc, ?_⟩
  intro db max_distance_miles now
  unfold find_nearby_facility
  cases hl : facility_lookup db latitude longitude max_distance_miles with
  | some r => rfl
  | none =>
    have h0 : (discover_facilities db latitude longitude resp now).1 = 0 := hdisc db now
    simp [h0]

/-- Witness for C2: a timeout yields the empty element list and
zero imported facilities on an empty store. -/
theorem osm_failure_yields_empty_result_witness :
    query_osm_nearby 0 0 5 ProviderResponse.timeout = [] ∧
    (discover_facilities ⟨[], [], 0⟩ 0 0 ProviderResponse.timeout 0).1 = 0 :=
  ⟨(osm_failure_yields_empty_result 0 0 5 ProviderResponse.timeout OsmError.timeoutErr rfl).1,
   (osm_failure_yields_empty_result 0 0 5 ProviderResponse.timeout OsmError.timeoutErr rfl).2.1
     ⟨[], [], 0⟩ 0⟩

/-! #### C5 and C6: region scan cache -/

lemma find?_map_cache (g : String) (f : OsmQueryCacheRecord → OsmQueryCacheRecord)
    (hkeep : ∀ r, (f r).geohash_key = r.geohash_key) :
    ∀ (l : List OsmQueryCacheRecord) (r0 : OsmQueryCacheRecord),
      l.find? (fun r => r.geohash_key == g) = some r0 →
      (l.map (fun r => if r.geohash_key == g then f r else r)).find?
        (fun r => r.geohash_key == g) = some (f r0) := by
  intro l
  induction l with
  | nil => intro r0 h; exact absurd h (by simp)
  | cons a tl ih =>
    intro r0 h
    cases ha : (a.geohash_key == g) with
    | true =>
      rw [@List.find?_cons_of_pos _ (fun r => r.geohash_key == g) a tl ha] at h
      injection h with h; subst h
      rw [List.map_cons, if_pos ha]
      exact @List.find?_cons_of_pos _ (fun r => r.geohash_key == g) (f a) _
        (by show ((f a).geohash_key == g) = true; rw [hkeep]; exact ha)
    | false =>
      rw [@List.find?_cons_of_neg _ (fun r => r.geohash_key == g) a tl (by simp [ha])] at h
      rw [List.map_cons, if_neg (by simp [ha])]
      rw [@List.find?_cons_of_neg _ (fun r => r.geohash_key == g) a _ (by simp [ha])]
      exact ih r0 h

/-- After `_update_query_cache`, the cell's row exists, carries the new
timestamp and result count, and its `query_count` is the previous count
plus one (one, if the row is new). -/
lemma update_cache_find (cache : List OsmQueryCacheRecord) (latitude longitude : ℚ)
    (n : ℕ) (t : ℤ) :
    ∃ r, ((_update_query_cache cache latitude longitude n t).find?
        (fun r => r.geohash_key == encode_geohash latitude longitude GEOHASH_PRECISION))
        = some r ∧
      r.last_queried_at = t ∧ r.facilities_found = n ∧
      r.query_count = (match cache.find?
          (fun r => r.geohash_key == encode_geohash latitude longitude GEOHASH_PRECISION) with
        | some r0 => r0.query_count + 1
        | none => 1) := by
  unfold _update_query_cache
  cases hf : cache.find?
      (fun r => r.geohash_key == encode_geohash latitude longitude GEOHASH_PRECISION) with
  | none =>
    refine ⟨⟨encode_geohash latitude longitude GEOHASH_PRECISION, latitude, longitude,
      QUERY_RADIUS_MILES, n, t, 1⟩, ?_, rfl, rfl, rfl⟩
    rw [find?_append_none _ _ _ hf]
    apply List.find?_cons_of_pos
    simp
  | some r0 =>
    refine ⟨_, find?_map_cache _
      (fun r => { r with last_queried_at := t, facilities_found := n, query_count := r0.query_count + 1 })
      (fun r => rfl) cache r0 hf, rfl, rfl, rfl⟩

/-- C5: `should_query_osm` is true exactly when the cell has no cache row
or the row is older than the 30-day window; immediately after
`_update_query_cache` it is false for the same cell, and it is true again
once more than 30 days have passed. -/
theorem should_query_osm_staleness (cache : List OsmQueryCacheRecord)
    (latitude longitude : ℚ) (now t t' : ℤ) (n : ℕ) :
    (should_query_osm cache latitude longitude now = true ↔
      (cache.find? (fun r =>
          r.geohash_key == encode_geohash latitude longitude GEOHASH_PRECISION) = none ∨
       ∃ r, cache.find? (fun r =>
          r.geohash_key == encode_geohash latitude longitude GEOHASH_PRECISION) = some r ∧
         now - r.last_queried_at > CACHE_REFRESH_DAYS * 86400)) ∧
    should_query_osm (_update_query_cache cache latitude longitude n t)
      latitude longitude t = false ∧
    (t' - t > CACHE_REFRESH_DAYS * 86400 →
      should_query_osm (_update_query_cache cache latitude longitude n t)
        latitude longitude t' = true) := by
  obtain ⟨r, hr, hlast, -, -⟩ := update_cache_find cache latitude longitude n t
  refine ⟨?_, ?_, ?_⟩
  · unfold should_query_osm
    cases hf : cache.find?
        (fun r => r.geohash_key == encode_geohash latitude longitude GEOHASH_PRECISION) with
    | none => simp
    | some r0 =>
      simp only [decide_eq_true_eq]
      constructor
      · intro hgt; exact Or.inr ⟨r0, rfl, hgt⟩
      · rintro (h | ⟨r1, h1, hgt⟩)
        · exact absurd h (by simp)
        · rw [Option.some.injEq] at h1; subst h1; exact hgt
  · unfold should_query_osm
    rw [hr]
    show decide (t - r.last_queried_at > CACHE_REFRESH_DAYS * 86400) = false
    rw [hlast]
    exact decide_eq_false (by simp [CACHE_REFRESH_DAYS])
  · intro hgt
    unfold should_query_osm
    rw [hr]
    show decide (t' - r.last_queried_at > CACHE_REFRESH_DAYS * 86400) = true
    rw [hlast]
    exact decide_eq_true hgt

lemma import_fold_cache (now : ℤ) (elements : List OsmElement) :
    ∀ acc : ℕ × DbState,
      ((elements.foldl (import_element now) acc).2).osm_query_cache
        = acc.2.osm_query_cache := by
  induction elements with
  | nil => intro acc; rfl
  | cons e tl ih =>
    intro acc
    rw [List.foldl_cons, ih]
    unfold import_element
    cases hp : parse_osm_element e now with
    | none => rfl
    | some f =>
      show (if check_duplicate_facility acc.2 f 0.05 = true then acc
        else (acc.1 + 1, insert_facility acc.2 f)).2.osm_query_cache
          = acc.2.osm_query_cache
      by_cases hd : check_duplicate_facility acc.2 f 0.05 = true
      · rw [if_pos hd]
      · rw [if_neg hd]
        rfl

/-- C6: whenever the should-scan gate passes, the discovery run upserts the
cell's cache row with the new timestamp and the provider element count, and
increments `query_count`; the recorded timestamp never decreases. -/
theorem discover_updates_query_cache (db : DbState) (latitude longitude : ℚ)
    (resp : ProviderResponse) (now : ℤ)
    (hgate : should_query_osm db.osm_query_cache latitude longitude now = true) :
    ∃ r, ((discover_facilities db latitude longitude resp now).2.osm_query_cache).find?
        (fun r => r.geohash_key == encode_geohash latitude longitude GEOHASH_PRECISION)
        = some r ∧
      r.last_queried_at = now ∧
      r.facilities_found
        = (query_osm_nearby latitude longitude QUERY_RADIUS_MILES resp).length ∧
      r.query_count = (match db.osm_query_cache.find?
          (fun r => r.geohash_key == encode_geohash latitude longitude GEOHASH_PRECISION) with
        | some r0 => r0.query_count + 1
        | none => 1) ∧
      ∀ r0, db.osm_query_cache.find?
          (fun r => r.geohash_key == encode_geohash latitude longitude GEOHASH_PRECISION)
            = some r0 →
        r0.last_queried_at ≤ now → r0.last_queried_at ≤ r.last_queried_at := by
  unfold discover_facilities
  rw [hgate]
  cases he : query_osm_nearby latitude longitude QUERY_RADIUS_MILES resp with
  | nil =>
    simp only [Bool.not_true, Bool.false_eq_true, if_false, List.isEmpty_nil, if_true]
    obtain ⟨r, hr, h1, h2, h3⟩ := update_cache_find db.osm_query_cache latitude longitude 0 now
    exact ⟨r, hr, h1, by rw [h2]; rfl, h3, fun r0 h0 hle => by rw [h1]; exact hle⟩
  | cons e tl =>
    simp only [Bool.not_true, Bool.false_eq_true, if_false, List.isEmpty_cons,
      Bool.false_eq_true, if_false]
    rw [import_fold_cache now (e :: tl) (0, db)]
    obtain ⟨r, hr, h1, h2, h3⟩ :=
      update_cache_find db.osm_query_cache latitude longitude (e :: tl).length now
    exact ⟨r, hr, h1, h2, h3, fun r0 h0 hle => by rw [h1]; exact hle⟩

/-- Witness for C6: a discovery run against an empty store with a
zero-element provider response records the scan. -/
theorem discover_updates_query_cache_witness :
    ∃ r, ((discover_facilities ⟨[], [], 0⟩ 0 0 (ProviderResponse.response 200 (some [])) 0).2.osm_query_cache).find?
        (fun r => r.geohash_key == encode_geohash 0 0 GEOHASH_PRECISION) = some r ∧
      r.last_queried_at = 0 ∧
      r.facilities_found
        = (query_osm_nearby 0 0 QUERY_RADIUS_MILES (ProviderResponse.response 200 (some []))).length ∧
      r.query_count = (match ([] : List OsmQueryCacheRecord).find?
          (fun r => r.geohash_key == encode_geohash 0 0 GEOHASH_PRECISION) with
        | some r0 => r0.query_count + 1
        | none => 1) ∧
      ∀ r0, ([] : List OsmQueryCacheRecord).find?
          (fun r => r.geohash_key == encode_geohash 0 0 GEOHASH_PRECISION) = some r0 →
        r0.last_queried_at ≤ 0 → r0.last_queried_at ≤ r.last_queried_at :=
  discover_updates_query_cache ⟨[], [], 0⟩ 0 0 (ProviderResponse.response 200 (some [])) 0 rfl

/-- Witness for C5: on an empty cache, updating the cell at time 0 makes an
immediate re-check return false, and a re-check 30 days plus one second
later returns true. -/
theorem should_query_osm_staleness_witness :
    should_query_osm (_update_query_cache [] 0 0 5 0) 0 0 0 = false ∧
    should_query_osm (_update_query_cache [] 0 0 5 0) 0 0 2592001 = true :=
  ⟨(should_query_osm_staleness [] 0 0 0 0 2592001 5).2.1,
   (should_query_osm_staleness [] 0 0 0 0 2592001 5).2.2 (by decide)⟩

/-! #### C7: exact-id deduplication -/

lemma claiming_insert (db : DbState) (f : FacilityRecord) (oid : ℤ)
    (hid : f.osm_id = some oid) :
    facilities_claiming (insert_facility db f) oid = facilities_claiming db oid + 1 := by
  unfold facilities_claiming insert_facility
  simp [hid]

lemma claiming_pos_any (db : DbState) (oid : ℤ)
    (h : 1 ≤ facilities_claiming db oid) :
    db.facilities.any (fun e => e.record.osm_id == some oid) = true := by
  unfold facilities_claiming at h
  obtain ⟨x, hx⟩ := List.exists_mem_of_length_pos h
  rw [List.mem_filter] at hx
  exact List.any_eq_true.mpr ⟨x, hx.1, hx.2⟩

lemma check_dup_false_no_claim (db : DbState) (f : FacilityRecord) (oid : ℤ)
    (hid : f.osm_id = some oid) (h0 : oid ≠ 0)
    (hc : check_duplicate_facility db f 0.05 = false) :
    facilities_claiming db oid = 0 := by
  by_contra hne
  have h1 : 1 ≤ facilities_claiming db oid := Nat.one_le_iff_ne_zero.mpr hne
  have hany : db.facilities.any (fun e => e.record.osm_id == f.osm_id) = true := by
    rw [hid]; exact claiming_pos_any db oid h1
  have htruthy : intTruthy f.osm_id = true := by
    rw [hid]; simp [intTruthy, h0]
  unfold check_duplicate_facility at hc
  rw [htruthy, hany] at hc
  simp at hc

lemma dup_check_true_of_claiming (db : DbState) (f : FacilityRecord) (oid : ℤ)
    (hid : f.osm_id = some oid) (h0 : oid ≠ 0)
    (h1 : 1 ≤ facilities_claiming db oid) :
    check_duplicate_facility db f 0.05 = true := by
  have hany : db.facilities.any (fun e => e.record.osm_id == f.osm_id) = true := by
    rw [hid]; exact claiming_pos_any db oid h1
  have htruthy : intTruthy f.osm_id = true := by
    rw [hid]; simp [intTruthy, h0]
  have hcond : (intTruthy f.osm_id &&
      db.facilities.any (fun e => e.record.osm_id == f.osm_id)) = true := by
    rw [htruthy, hany]; rfl
  unfold check_duplicate_facility
  rw [if_pos hcond]

/-- C7 (amended): for a candidate carrying a nonzero external OSM id that
is not yet a duplicate, feeding it through the deduplication filter and
persistence step twice stores exactly one row claiming that id — the
second pass is rejected by the exact-id check — and the step preserves the
invariant that at most one stored facility claims the id. -/
theorem dedup_exact_id_idempotent (db : DbState) (f : FacilityRecord) (oid : ℤ)
    (hid : f.osm_id = some oid) (h0 : oid ≠ 0) :
    (check_duplicate_facility db f 0.05 = false →
      facilities_claiming (import_candidate (import_candidate db f) f) oid = 1) ∧
    (facilities_claiming db oid ≤ 1 →
      facilities_claiming (import_candidate db f) oid ≤ 1) := by
  constructor
  · intro hc
    have h0cnt : facilities_claiming db oid = 0 :=
      check_dup_false_no_claim db f oid hid h0 hc
    have hstep1 : import_candidate db f = insert_facility db f := by
      unfold import_candidate; rw [hc]; simp
    have hcnt1 : facilities_claiming (insert_facility db f) oid = 1 := by
      rw [claiming_insert db f oid hid, h0cnt]
    have hdup2 : check_duplicate_facility (insert_facility db f) f 0.05 = true :=
      dup_check_true_of_claiming _ f oid hid h0 (le_of_eq hcnt1.symm)
    rw [hstep1]
    unfold import_candidate
    rw [if_pos hdup2]
    exact hcnt1
  · intro hle
    unfold import_candidate
    by_cases hd : check_duplicate_facility db f 0.05 = true
    · rw [if_pos hd]; exact hle
    · rw [if_neg hd]
      have h0cnt : facilities_claiming db oid = 0 :=
        check_dup_false_no_claim db f oid hid h0 (eq_false_of_ne_true hd)
      rw [claiming_insert db f oid hid, h0cnt]

/-- Witness for C7: importing the candidate with OSM id 123 twice into an
empty store yields exactly one row claiming id 123. -/
theorem dedup_exact_id_idempotent_witness :
    facilities_claiming
      (import_candidate (import_candidate ⟨[], [], 0⟩ sampleRecordC) sampleRecordC) 123 = 1 := by
  have hc : check_duplicate_facility ⟨[], [], 0⟩ sampleRecordC 0.05 = false := by
    unfold check_duplicate_facility
    rw [if_neg (by decide)]
    rfl
  exact (dedup_exact_id_idempotent ⟨[], [], 0⟩ sampleRecordC 123 rfl (by decide)).1 hc

/-- Counterexample for C7: OSM id 0 is falsy in Python, so the exact-id
check is skipped; a second candidate claiming id 0 in a different cell
passes the filter, leaving two stored facilities with the same external
id. -/
theorem duplicate_osm_id_zero_not_rejected :
    facilities_claiming
      { facilities := [{ id := 0, record := sampleRecordA }],
        osm_query_cache := [], next_id := 1 } 0 = 1 ∧
    facilities_claiming
      (import_candidate
        { facilities := [{ id := 0, record := sampleRecordA }],
          osm_query_cache := [], next_id := 1 } sampleRecordB) 0 = 2 := by
  refine ⟨rfl, ?_⟩
  have hc : check_duplicate_facility
      { facilities := [{ id := 0, record := sampleRecordA }],
        osm_query_cache := [], next_id := 1 } sampleRecordB 0.05 = false := by
    unfold check_duplicate_facility
    rw [if_neg (by decide)]
    dsimp only
    have hfilter : List.filter
        (fun e => strStarts e.record.geohash (strTake sampleRecordB.geohash 6))
        ([{ id := 0, record := sampleRecordA }] : List Facility) = [] := by decide
    rw [hfilter]
    rfl
  unfold import_candidate
  rw [hc]
  rfl

/-! #### C3: retry behaviour of find_nearby_facility -/

/-- C3 (amended): when the first lookup pass finds nothing and discovery is
requested, discovery runs, and the lookup is retried — exactly once, with
discovery disabled — precisely when discovery imported at least one
facility; the number of lookup passes never exceeds two. -/
theorem lookup_retry_iff_discovery_imported (db : DbState) (latitude longitude : ℚ)
    (max_distance_miles : ℝ) (resp : ProviderResponse) (now : ℤ)
    (hmiss : facility_lookup db latitude longitude max_distance_miles = none) :
    (find_nearby_facility db latitude longitude max_distance_miles true resp now).lookups
      = (if 0 < (discover_facilities db latitude longitude resp now).1 then 2 else 1) ∧
    ∀ (db' : DbState) (lat' lng' : ℚ) (maxd' : ℝ) (disc : Bool)
      (resp' : ProviderResponse) (now' : ℤ),
      (find_nearby_facility db' lat' lng' maxd' disc resp' now').lookups ≤ 2 := by
  constructor
  · unfold find_nearby_facility
    rw [hmiss]
    by_cases h : 0 < (discover_facilities db latitude longitude resp now).1
    · rw [if_pos h]
      simp [h]
    · rw [if_neg h]
      simp [h]
  · intro db' lat' lng' maxd' disc resp' now'
    unfold find_nearby_facility
    cases hl : facility_lookup db' lat' lng' maxd' with
    | some r => simp
    | none =>
      cases disc with
      | false => simp
      | true =>
        by_cases h : 0 < (discover_facilities db' lat' lng' resp' now').1
        · simp [h]
        · simp [h]

/-- Witness for C3 (amended): on an empty store with an empty provider
response, nothing is imported and no retry happens. -/
theorem lookup_retry_iff_discovery_imported_witness :
    (find_nearby_facility ⟨[], [], 0⟩ 0 0 (3/10) true
        (ProviderResponse.response 200 (some [])) 0).lookups
      = (if 0 < (discover_facilities ⟨[], [], 0⟩ 0 0
          (ProviderResponse.response 200 (some [])) 0).1 then 2 else 1) :=
  (lookup_retry_iff_discovery_imported ⟨[], [], 0⟩ 0 0 (3/10)
    (ProviderResponse.response 200 (some [])) 0 rfl).1

/-- Counterexample for C3: with no stored facility and a provider response
carrying no elements, discovery is invoked but the lookup is not retried
(one lookup pass, not two). -/
theorem lookup_not_retried_when_discovery_empty :
    facility_lookup ⟨[], [], 0⟩ 0 0 (3/10) = none ∧
    (find_nearby_facility ⟨[], [], 0⟩ 0 0 (3/10) true ProviderResponse.timeout 0).lookups
      = 1 := by
  have hm : facility_lookup ⟨[], [], 0⟩ 0 0 (3/10) = none := rfl
  refine ⟨hm, ?_⟩
  unfold find_nearby_facility
  rw [hm]
  have hd : (discover_facilities ⟨[], [], 0⟩ 0 0 ProviderResponse.timeout 0).1 = 0 := rfl
  simp [hd]

lemma radians_zero : radians 0 = 0 := by simp [radians]

lemma radians_nonneg {x : ℝ} (hx : 0 ≤ x) : 0 ≤ radians x := by
  have hπ : (0:ℝ) ≤ Real.pi / 180 := by positivity
  exact mul_nonneg hx hπ

/-- Evaluation of `fuzz_location` at the origin with angle 0 and distance
factor 1: the offset is exactly one degree of latitude. -/
lemma fuzz_location_eval : fuzz_location 0 0 69 0 1 = (1, 0) := by
  simp [fuzz_location, radians]

/-- Evaluation of the haversine between `(0,0)` and `(1,0)`:
one degree of latitude is `3959 * π / 180` miles. -/
lemma calculate_distance_one_degree_lat :
    calculate_distance 0 0 1 0 = 3959 * Real.pi / 180 := by
  have hπ : (0:ℝ) < Real.pi := Real.pi_pos
  have hy : radians 1 / 2 = Real.pi / 360 := by
    simp only [radians]; ring
  have hsin_nonneg : 0 ≤ Real.sin (Real.pi / 360) := by
    apply Real.sin_nonneg_of_nonneg_of_le_pi
    · positivity
    · nlinarith
  have harc : Real.arcsin (Real.sin (Real.pi / 360)) = Real.pi / 360 := by
    apply Real.arcsin_sin
    · nlinarith
    · nlinarith
  simp only [calculate_distance, radians_zero, sub_zero, zero_sub]
  rw [hy, show (0:ℝ) / 2 = 0 by ring, Real.sin_zero, Real.cos_zero]
  rw [show Real.sin (Real.pi / 360) ^ 2 + 1 * Real.cos (radians 1) * 0 ^ 2
        = Real.sin (Real.pi / 360) ^ 2 by ring]
  rw [Real.sqrt_sq hsin_nonneg, harc]
  ring

/-- C1: the public coordinate produced by `fuzz_location` at the full random
distance factor, angle 0 and radius 69 miles lies strictly more than
69 miles from the true coordinate, measured by `calculate_distance`. -/
theorem fuzz_radius_bound_violated :
    69 < calculate_distance 0 0
      (fuzz_location 0 0 69 0 1).1 (fuzz_location 0 0 69 0 1).2 := by
  rw [fuzz_location_eval]
  rw [calculate_distance_one_degree_lat]
  nlinarith [Real.pi_gt_d6]

/-! #### C4: the lookup bounding box under-covers at high latitude -/

lemma radians_sixty : radians 60 = Real.pi / 3 := by
  unfold radians; ring

lemma sin_small_nonneg : (0:ℝ) ≤ Real.sin (11 * Real.pi / 3600) := by
  apply Real.sin_nonneg_of_nonneg_of_le_pi
  · positivity
  · nlinarith [Real.pi_pos]

lemma arcsin_small_bound :
    Real.arcsin (Real.sin (11 * Real.pi / 3600) / 2) ≤ 23 / 3959 := by
  have ht1 : Real.sin (11 * Real.pi / 3600) / 2 ≤ Real.sin (23 / 3959) := by
    have hlt : Real.sin (11 * Real.pi / 3600) < 11 * Real.pi / 3600 :=
      Real.sin_lt (by positivity)
    have hgt : (23:ℝ) / 3959 - (23 / 3959) ^ 3 / 4 < Real.sin (23 / 3959) :=
      Real.sin_gt_sub_cube (by norm_num) (by norm_num)
    nlinarith [Real.pi_lt_d6]
  have h2 := Real.monotone_arcsin ht1
  rwa [Real.arcsin_sin (by nlinarith [Real.pi_gt_three]) (by nlinarith [Real.pi_gt_three])] at h2

/-- Distance along the 60th parallel over 1.1 degrees of longitude is at
most 46 miles. -/
lemma distance_at_sixty_le :
    calculate_distance 60 0 60 (11 / 10) ≤ 46 := by
  have hrady : radians (11 / 10) / 2 = 11 * Real.pi / 3600 := by
    unfold radians; ring
  simp only [calculate_distance]
  rw [show (60:ℝ) - 60 = 0 by ring, radians_zero]
  rw [show (0:ℝ) / 2 = 0 by ring, Real.sin_zero]
  rw [show (11 / 10 : ℝ) - 0 = 11 / 10 by ring]
  rw [radians_sixty, Real.cos_pi_div_three, hrady]
  rw [show (0:ℝ) ^ 2 + 1 / 2 * (1 / 2) * Real.sin (11 * Real.pi / 3600) ^ 2
      = (Real.sin (11 * Real.pi / 3600) / 2) ^ 2 by ring]
  rw [Real.sqrt_sq (div_nonneg sin_small_nonneg (by norm_num))]
  nlinarith [arcsin_small_bound]

/-- C4: a stored facility at `(60, 1.1)` is within 46 miles of the query
point `(60, 0)` but falls outside the bounding box that
`find_nearby_facility` queries for a 46-mile radius (half-width
`46 / 69 * 1.5 = 1` degree on both axes, with no `cos(latitude)`
correction for longitude), so the lookup misses it entirely. -/
theorem bounding_box_undercovers_at_high_latitude :
    calculate_distance 60 0 60 (11 / 10) ≤ 46 ∧
    ¬ in_search_box 60 0 46 sampleFacilityFar ∧
    facility_lookup ⟨[sampleFacilityFar], [], 1⟩ 60 0 46 = none := by
  have hbox : ¬ in_search_box 60 0 46 sampleFacilityFar := by
    simp only [in_search_box, sampleFacilityFar]
    push_cast
    norm_num
  refine ⟨distance_at_sixty_le, hbox, ?_⟩
  unfold facility_lookup
  have hfilt : List.filter (fun f => decide (in_search_box 60 0 46 f))
      [sampleFacilityFar] = [] := by
    simp [decide_eq_false hbox]
  rw [hfilt]
  rfl

/-! #### C8: cluster threshold and centroid -/

lemma mk_cluster_geohash (latitude longitude : ℚ) (h : String)
    (grp : List DriverLocationRow) : (mk_cluster latitude longitude h grp).geohash = h := rfl

lemma mk_cluster_center_lat (latitude longitude : ℚ) (h : String)
    (grp : List DriverLocationRow) :
    (mk_cluster latitude longitude h grp).center_latitude
      = (grp.map (fun d => d.fuzzed_latitude)).sum / grp.length := rfl

lemma mk_cluster_center_lng (latitude longitude : ℚ) (h : String)
    (grp : List DriverLocationRow) :
    (mk_cluster latitude longitude h grp).center_longitude
      = (grp.map (fun d => d.fuzzed_longitude)).sum / grp.length := rfl

lemma mem_get_driver_clusters (rows : List DriverLocationRow) (now : ℤ)
    (latitude longitude : ℚ) (radius_miles : ℝ) (min_drivers : ℕ) (c : Cluster) :
    c ∈ get_driver_clusters rows now latitude longitude radius_miles min_drivers ↔
    ∃ h, h ∈ dictKeys ((locations_in_radius rows now latitude longitude radius_miles).map
        (fun l => strTake l.geohash geohash_precision_metro)) ∧
      min_drivers ≤ (cluster_cell_group rows now latitude longitude radius_miles h).length ∧
      c = mk_cluster latitude longitude h
        (cluster_cell_group rows now latitude longitude radius_miles h) := by
  unfold get_driver_clusters
  rw [List.Perm.mem_iff (List.perm_insertionSort _ _)]
  rw [List.mem_filterMap]
  constructor
  · rintro ⟨h, hmem, heq⟩
    by_cases hlen : min_drivers ≤ (cluster_cell_group rows now latitude longitude radius_miles h).length
    · rw [if_pos hlen] at heq
      rw [Option.some.injEq] at heq
      exact ⟨h, hmem, hlen, heq.symm⟩
    · rw [if_neg hlen] at heq
      exact absurd heq (by simp)
  · rintro ⟨h, hmem, hlen, rfl⟩
    exact ⟨h, hmem, by rw [if_pos hlen]⟩

/-- C8: a spatial cell group below the minimum-member threshold never
appears in the clusters output, a group of exactly the threshold size does
appear, and every returned cluster's centroid is the arithmetic mean of
its group members' fuzzed coordinates. -/
theorem cluster_threshold_and_centroid (rows : List DriverLocationRow) (now : ℤ)
    (latitude longitude : ℚ) (radius_miles : ℝ) (min_drivers : ℕ) (h : String) :
    ((cluster_cell_group rows now latitude longitude radius_miles h).length < min_drivers →
      ∀ c ∈ get_driver_clusters rows now latitude longitude radius_miles min_drivers,
        c.geohash ≠ h) ∧
    ((cluster_cell_group rows now latitude longitude radius_miles h).length = min_drivers →
      1 ≤ min_drivers →
      ∃ c ∈ get_driver_clusters rows now latitude longitude radius_miles min_drivers,
        c.geohash = h ∧
        c.center_latitude = ((cluster_cell_group rows now latitude longitude radius_miles h).map
            (fun d => d.fuzzed_latitude)).sum
          / (cluster_cell_group rows now latitude longitude radius_miles h).length ∧
        c.center_longitude = ((cluster_cell_group rows now latitude longitude radius_miles h).map
            (fun d => d.fuzzed_longitude)).sum
          / (cluster_cell_group rows now latitude longitude radius_miles h).length) ∧
    (∀ c ∈ get_driver_clusters rows now latitude longitude radius_miles min_drivers,
      c.center_latitude = ((cluster_cell_group rows now latitude longitude radius_miles c.geohash).map
          (fun d => d.fuzzed_latitude)).sum
        / (cluster_cell_group rows now latitude longitude radius_miles c.geohash).length ∧
      c.center_longitude = ((cluster_cell_group rows now latitude longitude radius_miles c.geohash).map
          (fun d => d.fuzzed_longitude)).sum
        / (cluster_cell_group rows now latitude longitude radius_miles c.geohash).length) := by
  refine ⟨?_, ?_, ?_⟩
  · intro hlt c hc hgeo
    rw [mem_get_driver_clusters] at hc
    obtain ⟨h1, hmem, hlen, rfl⟩ := hc
    rw [mk_cluster_geohash] at hgeo
    subst hgeo
    exact absurd hlen (Nat.not_le_of_lt hlt)
  · intro hlen hpos
    have hpos1 : 0 < (cluster_cell_group rows now latitude longitude radius_miles h).length := by
      rw [hlen]; exact hpos
    obtain ⟨x, hx⟩ := List.exists_mem_of_length_pos hpos1
    unfold cluster_cell_group at hx
    rw [List.mem_filter] at hx
    have hkeys : h ∈ dictKeys ((locations_in_radius rows now latitude longitude radius_miles).map
        (fun l => strTake l.geohash geohash_precision_metro)) := by
      rw [dictKeys_mem]
      refine List.mem_map.mpr ⟨x, hx.1, ?_⟩
      exact beq_iff_eq.mp hx.2
    refine ⟨mk_cluster latitude longitude h
      (cluster_cell_group rows now latitude longitude radius_miles h), ?_, rfl, rfl, rfl⟩
    rw [mem_get_driver_clusters]
    exact ⟨h, hkeys, le_of_eq hlen.symm, rfl⟩
  · intro c hc
    rw [mem_get_driver_clusters] at hc
    obtain ⟨h1, hmem, hlen, rfl⟩ := hc
    rw [mk_cluster_geohash]
    exact ⟨rfl, rfl⟩

/-- Witness for C8: with no driver rows, no cell reaches the threshold and
the clusters output rejects every cell key. -/
theorem cluster_threshold_and_centroid_witness :
    ∀ c ∈ get_driver_clusters [] 0 0 0 1 2, c.geohash ≠ "aaaaaa" :=
  (cluster_threshold_and_centroid [] 0 0 0 1 2 "aaaaaa").1
    (by simp [cluster_cell_group, locations_in_radius])

/-! #### C9: output orderings -/

lemma hotspots_sorted (rows : List DriverLocationRow) (facilities : List Facility)
    (now : ℤ) (latitude longitude : ℚ) (radius_miles : ℝ)
    (min_waiting_drivers : Option ℕ) :
    List.Sorted hotspotGe
      (get_hotspots rows facilities now latitude longitude radius_miles
        min_waiting_drivers) := by
  unfold get_hotspots
  exact List.sorted_insertionSort hotspotGe _

lemma clusters_sorted (rows : List DriverLocationRow) (now : ℤ)
    (latitude longitude : ℚ) (radius_miles : ℝ) (min_drivers : ℕ) :
    List.Sorted clusterLe
      (get_driver_clusters rows now latitude longitude radius_miles min_drivers) := by
  unfold get_driver_clusters
  exact List.sorted_insertionSort clusterLe _

/-- C9 (amended): the hotspot output is always sorted by waiting-driver
count descending and the clusters output is always sorted by reported
distance from the search center ascending, for every choice of caller
parameters; the two orders are fixed by the code. -/
theorem outputs_sorted_hardcoded_orders :
    (∀ (rows : List DriverLocationRow) (facilities : List Facility) (now : ℤ)
      (latitude longitude : ℚ) (radius_miles : ℝ) (min_waiting_drivers : Option ℕ),
      List.Sorted hotspotGe
        (get_hotspots rows facilities now latitude longitude radius_miles
          min_waiting_drivers)) ∧
    (∀ (rows : List DriverLocationRow) (now : ℤ) (latitude longitude : ℚ)
      (radius_miles : ℝ) (min_drivers : ℕ),
      List.Sorted clusterLe
        (get_driver_clusters rows now latitude longitude radius_miles min_drivers)) :=
  ⟨fun rows facilities now latitude longitude radius_miles minw =>
    hotspots_sorted rows facilities now latitude longitude radius_miles minw,
   fun rows now latitude longitude radius_miles min_drivers =>
    clusters_sorted rows now latitude longitude radius_miles min_drivers⟩

/-- Counterexample for C9: no choice of caller-supplied arguments yields a
hotspot output out of descending count order or a cluster output out of
ascending distance order — the orderings are hard-coded, not configurable
by the caller. -/
theorem ordering_not_caller_configurable : ¬ ordering_caller_configurable := by
  rintro (⟨rows, facilities, now, latitude, longitude, radius_miles, minw, hn⟩ |
          ⟨rows, now, latitude, longitude, radius_miles, min_drivers, hn⟩)
  · exact hn (hotspots_sorted rows facilities now latitude longitude radius_miles minw)
  · exact hn (clusters_sorted rows now latitude longitude radius_miles min_drivers)

end FindTruck
